import Mathlib

/-!
Verification development for the SPECIES marketplace settlement pipeline.

The definitions below are a shallow embedding of the pipeline services
(Cashier / ledger poster, Matching, Floor Manager / reconciler, Classifier,
Validator / payment verifier) as they appear in the SpecCards and architecture
sources of the repository.  JavaScript numbers holding asset amounts are
embedded as `Int` (the asset's smallest unit) except in the payment verifier,
where fractional USDT amounts and tolerances require `ℚ`.  Wall-clock reads
(`new Date()`), generated UUIDs and the results of external network calls are
passed to the embedded functions as explicit arguments.
-/

namespace Species

/-- Character-level embedding of JavaScript `String.prototype.startsWith`:
`listStartsWith pat s` is true when `pat` is an initial segment of `s`. -/
def listStartsWith : List Char → List Char → Bool
  | [], _ => true
  | _ :: _, [] => false
  | p :: ps, c :: cs => p == c && listStartsWith ps cs

/-- Character-level embedding of JavaScript `String.prototype.includes`:
`containsSeq pat s` is true when `pat` occurs contiguously inside `s`. -/
def containsSeq (pat : List Char) : List Char → Bool
  | [] => pat.isEmpty
  | c :: rest => listStartsWith pat (c :: rest) || containsSeq pat rest

/-- Transaction intents shared by the pipeline services
(`04_Classifier.ts`, `06_Cashier.ts`, Matching SpecCard). -/
inductive Intent where
  | BUY_TREASURY
  | BUY_MARKET
  | SELL_MARKET
  | TRANSFER
deriving DecidableEq, Repr

/-- Rendering of an intent, matching the string literals of the source. -/
def Intent.label : Intent → String
  | .BUY_TREASURY => "BUY_TREASURY"
  | .BUY_MARKET => "BUY_MARKET"
  | .SELL_MARKET => "SELL_MARKET"
  | .TRANSFER => "TRANSFER"

namespace Cashier

/-- Currencies of journal lines (`06_Cashier.ts`, `Currency`). -/
inductive Currency where
  | USDT
  | SPECIES
deriving DecidableEq, Repr

/-- Ledger account kinds (`06_Cashier.ts`, `AccountKind`). -/
inductive AccountKind where
  | USDT_cash
  | USDT_settlement_payable
  | USDT_fee_income
  | SPECIES_balance
  | SPECIES_inventory
  | SPECIES_in_transit
deriving DecidableEq, Repr

/-- Debit or credit side of a journal line (`06_Cashier.ts`, `JournalLine.side`). -/
inductive Side where
  | Dr
  | Cr
deriving DecidableEq, Repr

/-- Account reference of a journal line (`06_Cashier.ts`, `JournalLine.account`). -/
structure Account where
  onliId : String
  kind : AccountKind
deriving DecidableEq, Repr

/-- One journal line (`06_Cashier.ts`, `JournalLine`).  The optional `memo` and
`meta` fields carry no logic and are omitted. -/
structure JournalLine where
  account : Account
  currency : Currency
  amount : Int
  side : Side
deriving DecidableEq, Repr

/-- The `payment.confirmed` event consumed by the Cashier
(`06_Cashier.ts`, `PaymentConfirmed`). -/
structure PaymentConfirmed where
  eventId : String
  matchId : String
  buyerId : String
  sellerId : String
  intent : Intent
  amount : Int
  usdtAmount : Int
  feeUsdt : Option Int
  provider : String
  providerPaymentId : Option String
  confirmations : Nat
  ts : String
deriving DecidableEq, Repr

/-- One posting of journal lines (`06_Cashier.ts`, `JournalPost`). -/
structure JournalPost where
  postingId : String
  eventId : String
  matchId : String
  lines : List JournalLine
  postedAt : String
  description : String
deriving DecidableEq, Repr

/-- The `ledger.posted` event emitted after a successful post
(`06_Cashier.ts`, `LedgerPosted`). -/
structure LedgerPosted where
  eventId : String
  matchId : String
  postingId : String
  accountsAffected : List String
  totalDebit : Int
  totalCredit : Int
  ts : String
deriving DecidableEq, Repr

/-- Embedding of `CashierService.createJournalEntries` (`06_Cashier.ts`
lines 148-193).  The `generateUUID()` and `new Date()` reads of the source are
the `postingId` and `postedAt` arguments.  Only the `BUY_TREASURY` case builds
lines; the source marks the remaining intents `// ... other intents` and they
fall through with an empty line list. -/
def createJournalEntries (event : PaymentConfirmed) (postingId postedAt : String) :
    JournalPost :=
  let lines : List JournalLine :=
    match event.intent with
    | .BUY_TREASURY =>
        [{ account := { onliId := event.buyerId, kind := .SPECIES_balance },
           currency := .SPECIES, amount := event.amount, side := .Dr },
         { account := { onliId := "treasury", kind := .SPECIES_inventory },
           currency := .SPECIES, amount := event.amount, side := .Cr },
         { account := { onliId := "assurance", kind := .USDT_cash },
           currency := .USDT, amount := event.usdtAmount, side := .Dr },
         { account := { onliId := event.buyerId, kind := .USDT_cash },
           currency := .USDT, amount := event.usdtAmount, side := .Cr }]
    | _ => []
  { postingId := postingId
    eventId := event.eventId
    matchId := event.matchId
    lines := lines
    postedAt := postedAt
    description := event.intent.label ++ " - " ++ toString event.amount ++ " SPECIES" }

/-- Sum of the amounts of the lines of `j` that carry currency `c` on side `s`. -/
def sumSide (j : JournalPost) (c : Currency) (s : Side) : Int :=
  (j.lines.filter (fun l => l.currency == c && l.side == s)).foldl
    (fun acc l => acc + l.amount) 0

/-- Sum of all debit amounts of a posting (`CashierService.sumDebits`). -/
def sumDebits (j : JournalPost) : Int :=
  (j.lines.filter (fun l => l.side == Side.Dr)).foldl (fun acc l => acc + l.amount) 0

/-- Sum of all credit amounts of a posting (`CashierService.sumCredits`). -/
def sumCredits (j : JournalPost) : Int :=
  (j.lines.filter (fun l => l.side == Side.Cr)).foldl (fun acc l => acc + l.amount) 0

/-- Accounts touched by a posting (`CashierService.getAffectedAccounts`). -/
def getAffectedAccounts (j : JournalPost) : List String :=
  j.lines.map (fun l => l.account.onliId)

/-- The two currencies a posting can mention. -/
def allCurrencies : List Currency := [Currency.USDT, Currency.SPECIES]

/-- Modelled from the spec: the body of `CashierService.validateBalanced` is not
in the source (only its call site, `06_Cashier.ts` line 124).  The spec requires
the poster to verify in-process that every currency's debit and credit sums are
equal, and to treat a mismatch as fatal (surfaced immediately, not posted and
not silently corrected); we model the fatal path as an `Except.error`. -/
def validateBalanced (j : JournalPost) : Except String Unit :=
  if allCurrencies.all (fun c => sumSide j c .Dr == sumSide j c .Cr) then
    Except.ok ()
  else
    Except.error "unbalanced journal posting"

/-- Stored state of the Cashier: the idempotency keys already posted with their
posting ids (`storePostingReference` / `isAlreadyPosted`), the postings
submitted to Firefly keyed by their `external_id`, and the running balance
cache.  Modelled from the spec: the bodies of these storage helpers are not in
the source (only their call sites in `processPaymentConfirmed`); the spec's
steps 7-11 describe them as a keyed posting store and a running balances
cache. -/
structure CashierState where
  postedKeys : List (String × String)
  firefly : List (String × JournalPost)
  balanceCache : List (String × Currency × Int)
deriving DecidableEq, Repr

/-- The idempotency key of an event, built as in the source:
backtick-template `eventId:matchId`. -/
def pKey (e : PaymentConfirmed) : String := e.eventId ++ ":" ++ e.matchId

/-- Modelled from the spec: `CashierService.isAlreadyPosted` looks the key up in
the local posting-reference store. -/
def isAlreadyPosted (st : CashierState) (key : String) : Bool :=
  st.postedKeys.any (fun p => p.1 == key)

/-- Number of Firefly postings recorded under a given idempotency key. -/
def fireflyCount (st : CashierState) (key : String) : Nat :=
  (st.firefly.filter (fun p => p.1 == key)).length

/-- Adjust one running balance entry, inserting it if absent. -/
def bumpBalance (cache : List (String × Currency × Int)) (who : String)
    (c : Currency) (d : Int) : List (String × Currency × Int) :=
  match cache with
  | [] => [(who, c, d)]
  | (k, c0, v) :: rest =>
      if k == who && c0 == c then (k, c0, v + d) :: rest
      else (k, c0, v) :: bumpBalance rest who c d

/-- Modelled from the spec: `CashierService.updateBalanceCache` maintains
running balances per account and currency (logic step 11); debits add and
credits subtract. -/
def updateBalanceCache (cache : List (String × Currency × Int)) (j : JournalPost) :
    List (String × Currency × Int) :=
  j.lines.foldl
    (fun acc l =>
      bumpBalance acc l.account.onliId l.currency
        (if l.side == Side.Dr then l.amount else -l.amount))
    cache

/-- The `ledger.posted` event built at the end of `processPaymentConfirmed`. -/
def mkLedgerPosted (e : PaymentConfirmed) (postingId : String) (j : JournalPost)
    (ts : String) : LedgerPosted :=
  { eventId := e.eventId
    matchId := e.matchId
    postingId := postingId
    accountsAffected := getAffectedAccounts j
    totalDebit := sumDebits j
    totalCredit := sumCredits j
    ts := ts }

/-- Embedding of `CashierService.processPaymentConfirmed` (`06_Cashier.ts`
lines 113-146).  The `generateUUID()` and the two `new Date()` reads are the
`postingId`, `postedAt` and `ts` arguments.  The function first checks the
idempotency key and returns without effect if the key was already posted;
otherwise it builds the journal, validates balance (fatal on mismatch), posts
to Firefly, stores the posting reference, updates the balance cache and emits
`ledger.posted`. -/
def processPaymentConfirmed (st : CashierState) (e : PaymentConfirmed)
    (postingId postedAt ts : String) :
    Except String (CashierState × Option LedgerPosted) :=
  let key := pKey e
  if isAlreadyPosted st key then
    Except.ok (st, none)
  else
    let journal := createJournalEntries e postingId postedAt
    match validateBalanced journal with
    | Except.error msg => Except.error msg
    | Except.ok () =>
        let st1 : CashierState :=
          { postedKeys := (key, postingId) :: st.postedKeys
            firefly := (key, journal) :: st.firefly
            balanceCache := updateBalanceCache st.balanceCache journal }
        Except.ok (st1, some (mkLedgerPosted e postingId journal ts))

/-- Re-deliver the same `payment.confirmed` message once per element of
`params` (each element supplies the fresh uuid and clock reads of that run). -/
def redeliverAll (st : CashierState) (e : PaymentConfirmed) :
    List (String × String × String) → Except String CashierState
  | [] => Except.ok st
  | (pid, pt, ts) :: rest =>
      match processPaymentConfirmed st e pid pt ts with
      | Except.error msg => Except.error msg
      | Except.ok (st1, _) => redeliverAll st1 e rest

theorem sumSide_createJournalEntries (e : PaymentConfirmed) (pid pt : String)
    (c : Currency) :
    sumSide (createJournalEntries e pid pt) c .Dr
      = sumSide (createJournalEntries e pid pt) c .Cr := by
  obtain ⟨eid, mid, b, s, intent, amt, usdt, fee, prov, ppid, conf, ts⟩ := e
  cases intent <;> cases c <;> rfl

theorem validateBalanced_ok (e : PaymentConfirmed) (pid pt : String) :
    validateBalanced (createJournalEntries e pid pt) = Except.ok () := by
  have h := sumSide_createJournalEntries e pid pt
  have hc : (allCurrencies.all fun c =>
      sumSide (createJournalEntries e pid pt) c .Dr
        == sumSide (createJournalEntries e pid pt) c .Cr) = true := by
    simp only [allCurrencies, List.all_cons, List.all_nil, Bool.and_true,
      Bool.and_eq_true, beq_iff_eq]
    exact ⟨h .USDT, h .SPECIES⟩
  simp [validateBalanced, hc]

theorem isAlreadyPosted_after_post (st : CashierState) (e : PaymentConfirmed)
    (pid pt ts : String) (st1 : CashierState) (out : Option LedgerPosted)
    (hok : processPaymentConfirmed st e pid pt ts = Except.ok (st1, out))
    (hfresh : isAlreadyPosted st (pKey e) = false) :
    st1 = { postedKeys := (pKey e, pid) :: st.postedKeys
            firefly := (pKey e, createJournalEntries e pid pt) :: st.firefly
            balanceCache := updateBalanceCache st.balanceCache
              (createJournalEntries e pid pt) }
      ∧ out = some (mkLedgerPosted e pid (createJournalEntries e pid pt) ts) := by
  rw [processPaymentConfirmed, hfresh] at hok
  simp only [Bool.false_eq_true, if_false, validateBalanced_ok] at hok
  exact ⟨(Prod.mk.injEq _ _ _ _ ▸ (Except.ok.injEq _ _ ▸ hok)).1.symm,
    (Prod.mk.injEq _ _ _ _ ▸ (Except.ok.injEq _ _ ▸ hok)).2.symm⟩

theorem redeliver_noop (st : CashierState) (e : PaymentConfirmed)
    (hdone : isAlreadyPosted st (pKey e) = true) :
    ∀ params, redeliverAll st e params = Except.ok st := by
  intro params
  induction params with
  | nil => rfl
  | cons p rest ih =>
      obtain ⟨pid, pt, ts⟩ := p
      rw [redeliverAll, processPaymentConfirmed, hdone]
      simpa using ih

/-- C1: every journal posting the Cashier builds from a confirmed-payment event
is balanced for every currency (sum of Dr line amounts equals sum of Cr line
amounts), the in-process balance check `validateBalanced` accepts it before
submission (a mismatch would abort with a fatal error instead of posting), and
consequently every posting a successful run adds to the external ledger is
balanced. -/
theorem cashier_posting_balanced (e : PaymentConfirmed) (pid pt : String) :
    (∀ c : Currency, sumSide (createJournalEntries e pid pt) c .Dr
        = sumSide (createJournalEntries e pid pt) c .Cr)
    ∧ validateBalanced (createJournalEntries e pid pt) = Except.ok ()
    ∧ ∀ (st st1 : CashierState) (ts : String) (out : Option LedgerPosted),
        processPaymentConfirmed st e pid pt ts = Except.ok (st1, out) →
        ∀ k j, (k, j) ∈ st1.firefly →
          (k, j) ∈ st.firefly ∨ ∀ c : Currency, sumSide j c .Dr = sumSide j c .Cr := by
  refine ⟨sumSide_createJournalEntries e pid pt, validateBalanced_ok e pid pt, ?_⟩
  intro st st1 ts out hok k j hmem
  by_cases hfresh : isAlreadyPosted st (pKey e) = true
  · rw [processPaymentConfirmed, hfresh] at hok
    simp only [if_true] at hok
    obtain ⟨hst, -⟩ := Prod.mk.injEq _ _ _ _ ▸ (Except.ok.injEq _ _ ▸ hok)
    exact Or.inl (hst ▸ hmem)
  · obtain ⟨hst, -⟩ := isAlreadyPosted_after_post st e pid pt ts st1 out hok
      (Bool.not_eq_true _ ▸ hfresh)
    subst hst
    rcases List.mem_cons.mp hmem with hhead | htail
    · right
      have hj : j = createJournalEntries e pid pt := congrArg Prod.snd hhead
      exact fun c => hj ▸ sumSide_createJournalEntries e pid pt c
    · exact Or.inl htail

/-- Concrete confirmed-payment event used by the witnesses. -/
def eW : PaymentConfirmed :=
  { eventId := "e1"
    matchId := "m1"
    buyerId := "alice"
    sellerId := "usr-treasury-vault-system"
    intent := .BUY_TREASURY
    amount := 1000
    usdtAmount := 10
    feeUsdt := none
    provider := "NOWPayments"
    providerPaymentId := none
    confirmations := 15
    ts := "t0" }

/-- Empty Cashier state used by the witnesses. -/
def st0 : CashierState := { postedKeys := [], firefly := [], balanceCache := [] }

/-- The journal the Cashier builds for `eW`. -/
def journalW : JournalPost := createJournalEntries eW "p1" "d1"

/-- The Cashier state after the first successful post of `eW`. -/
def stW : CashierState :=
  { postedKeys := [(pKey eW, "p1")]
    firefly := [(pKey eW, journalW)]
    balanceCache := updateBalanceCache [] journalW }

/-- The event emitted by the first successful post of `eW`. -/
def outW : Option LedgerPosted := some (mkLedgerPosted eW "p1" journalW "t1")

/-- Witness for C1: at the concrete event `eW` posted into the empty state, the
hypotheses of the third conjunct are discharged and the posting stored under
the idempotency key is balanced. -/
theorem cashier_posting_balanced_witness :
    (pKey eW, journalW) ∈ stW.firefly ∧
      ((pKey eW, journalW) ∈ st0.firefly
        ∨ ∀ c : Currency, sumSide journalW c .Dr = sumSide journalW c .Cr) :=
  ⟨List.mem_cons_self _ _,
    (cashier_posting_balanced eW "p1" "d1").2.2 st0 stW "t1" outW rfl
      (pKey eW) journalW (List.mem_cons_self _ _)⟩

/-- C2: processing the same confirmed-payment message through the Cashier is
idempotent.  Starting from a state where the `eventId:matchId` key is fresh, the
first successful run emits a posting; afterwards exactly one Firefly posting is
stored under the key, and re-delivering the same message any number of times is
a no-op: no error, no new posting, no change to any stored state. -/
theorem cashier_idempotent (st st1 : CashierState) (e : PaymentConfirmed)
    (pid pt ts : String) (out : Option LedgerPosted)
    (hfresh : isAlreadyPosted st (pKey e) = false)
    (hcount : fireflyCount st (pKey e) = 0)
    (hok : processPaymentConfirmed st e pid pt ts = Except.ok (st1, out)) :
    (∃ lp, out = some lp) ∧ fireflyCount st1 (pKey e) = 1
      ∧ ∀ params, redeliverAll st1 e params = Except.ok st1 := by
  obtain ⟨hst, hout⟩ := isAlreadyPosted_after_post st e pid pt ts st1 out hok hfresh
  subst hst
  refine ⟨⟨mkLedgerPosted e pid (createJournalEntries e pid pt) ts, hout⟩, ?_, ?_⟩
  · unfold fireflyCount at hcount ⊢
    simp only [List.filter_cons, beq_self_eq_true, if_true, List.length_cons, hcount]
  · exact redeliver_noop _ e (by simp [isAlreadyPosted])

/-- Witness for C2: the concrete event `eW` posted into the empty state yields
exactly one stored posting, and every further re-delivery leaves the state
unchanged. -/
theorem cashier_idempotent_witness :
    (∃ lp, outW = some lp) ∧ fireflyCount stW (pKey eW) = 1
      ∧ ∀ params, redeliverAll stW eW params = Except.ok stW :=
  cashier_idempotent st0 stW eW "p1" "d1" "t1" outW (by decide) (by decide) rfl

end Cashier

namespace Matching

/-- Listing lifecycle states (Matching SpecCard, `Listing.status`). -/
inductive ListingStatus where
  | ACTIVE
  | PARTIALLY_FILLED
  | FILLED
  | EXPIRED
  | CANCELLED
deriving DecidableEq, Repr

/-- Fill / match-reservation states (Matching SpecCard, `Fill.status`). -/
inductive FillStatus where
  | PENDING
  | RESERVED
  | CONFIRMED
  | EXPIRED
deriving DecidableEq, Repr

/-- Registry record for a user, with the fields `createTreasuryFill` reads. -/
structure UserRecord where
  onliId : String
  vaultId : String
deriving DecidableEq, Repr

/-- The `order.classified` event consumed by the Matching service.  The source
fields `from`/`to` are embedded as `fromId`/`toId` (`from` is reserved in
Lean). -/
structure OrderClassified where
  eventId : String
  intent : Intent
  amount : Int
  listingId : Option String
  fromId : String
  toId : String
  ts : String
deriving DecidableEq, Repr

/-- One fill / match reservation (Matching SpecCard, `Fill`).  Timestamps are
milliseconds as produced by `Date.now()`. -/
structure Fill where
  matchId : String
  eventId : String
  buyerId : String
  buyerVault : Option String
  sellerId : String
  sellerVault : Option String
  fillAmount : Int
  listingId : Option String
  requiresBuyerProof : Bool
  status : FillStatus
  createdAt : Int
  expiresAt : Int
deriving DecidableEq, Repr

/-- A standing sell order (Matching SpecCard, `Listing`).  The source field
`amount` is the listing's total amount. -/
structure Listing where
  listingId : String
  askToMoveId : Option String
  sellerId : String
  amount : Int
  priceUsdt : Int
  availableAmount : Int
  status : ListingStatus
  createdAt : Int
  expiresAt : Int
deriving DecidableEq, Repr

/-- Embedding of `MatchingService.createTreasuryFill` (Matching SpecCard).
The `generateUUID()` and `Date.now()` reads are the `matchId` and `now`
arguments; `buyer` is the registry record resolved for `event.from`. -/
def createTreasuryFill (event : OrderClassified) (buyer : UserRecord)
    (matchId : String) (now : Int) : List Fill :=
  [{ matchId := matchId
     eventId := event.eventId
     buyerId := buyer.onliId
     buyerVault := some buyer.vaultId
     sellerId := "usr-treasury-vault-system"
     sellerVault := some "treasury-vault"
     fillAmount := event.amount
     listingId := none
     requiresBuyerProof := false
     status := .RESERVED
     createdAt := now
     expiresAt := now + 5 * 60 * 1000 }]

/-- Concrete treasury-issuance order used by the C8 counterexample. -/
def eventC8 : OrderClassified :=
  { eventId := "e8"
    intent := .BUY_TREASURY
    amount := 500
    listingId := none
    fromId := "bob"
    toId := "usr-treasury-vault-system"
    ts := "t" }

/-- Concrete registry record for the requester of `eventC8`. -/
def buyerC8 : UserRecord := { onliId := "bob", vaultId := "vault-bob" }

/-- C8 counterexample: at a concrete treasury-issuance order the single fill
produced by `createTreasuryFill` does carry a reservation hold — it is created
in `RESERVED` status with an expiry five minutes after creation — so the
claim's conjunct that the fill carries no reservation hold or reservation
expiry is false. -/
theorem treasury_fill_reserved_counterexample :
    (createTreasuryFill eventC8 buyerC8 "m8" 0).length = 1 ∧
      ¬ (∀ f ∈ createTreasuryFill eventC8 buyerC8 "m8" 0,
          f.status ≠ FillStatus.RESERVED) ∧
      ∃ f ∈ createTreasuryFill eventC8 buyerC8 "m8" 0,
        f.status = FillStatus.RESERVED ∧ f.expiresAt = f.createdAt + 300000 := by
  refine ⟨rfl, ?_, ?_⟩
  · intro h
    exact h _ (List.mem_cons_self _ _) rfl
  · exact ⟨_, List.mem_cons_self _ _, rfl, rfl⟩

/-- C8 (amended): for every treasury-issuance order, `createTreasuryFill`
produces exactly one synthetic fill whose buyer is the requester's registry
record and whose seller is the treasury account, referencing no listing (so no
listing inventory is held); the fill itself, however, is created in `RESERVED`
status with an expiry five minutes after creation. -/
theorem treasury_fill_shape (event : OrderClassified) (buyer : UserRecord)
    (matchId : String) (now : Int) :
    (createTreasuryFill event buyer matchId now).length = 1 ∧
      ∀ f ∈ createTreasuryFill event buyer matchId now,
        f.buyerId = buyer.onliId ∧ f.buyerVault = some buyer.vaultId ∧
        f.sellerId = "usr-treasury-vault-system" ∧
        f.sellerVault = some "treasury-vault" ∧
        f.fillAmount = event.amount ∧ f.listingId = none ∧
        f.requiresBuyerProof = false ∧ f.status = FillStatus.RESERVED ∧
        f.createdAt = now ∧ f.expiresAt = now + 300000 := by
  refine ⟨rfl, ?_⟩
  intro f hf
  rcases List.mem_cons.mp hf with h | h
  · subst h
    exact ⟨rfl, rfl, rfl, rfl, rfl, rfl, rfl, rfl, rfl, rfl⟩
  · cases h

/-- The single fill `createTreasuryFill` produces for `eventC8`. -/
def fillC8 : Fill :=
  { matchId := "m8"
    eventId := "e8"
    buyerId := "bob"
    buyerVault := some "vault-bob"
    sellerId := "usr-treasury-vault-system"
    sellerVault := some "treasury-vault"
    fillAmount := 500
    listingId := none
    requiresBuyerProof := false
    status := .RESERVED
    createdAt := 0
    expiresAt := 300000 }

/-- Witness for C8's amended theorem at the concrete order `eventC8`. -/
theorem treasury_fill_shape_witness :
    (createTreasuryFill eventC8 buyerC8 "m8" 0).length = 1 ∧
      (fillC8.buyerId = "bob" ∧ fillC8.status = FillStatus.RESERVED) := by
  obtain ⟨hlen, hall⟩ := treasury_fill_shape eventC8 buyerC8 "m8" 0
  obtain ⟨hb, -, -, -, -, -, -, hs, -, -⟩ := hall fillC8 (by decide)
  exact ⟨hlen, hb, hs⟩

/-- State of one listing together with the match reservations held against it.
Modelled from the spec: the market-side bodies of the Matching service
(`createMarketFills`, reservation release and fill confirmation) are only
declared in the source (the dispatch in `createFills`); the spec describes the
listing arena and reservation leases in sections 3, 4.3 and 5. -/
structure ListingState where
  listing : Listing
  reservations : List Fill
deriving DecidableEq, Repr

/-- Matching-engine operations on one listing. -/
inductive MOp where
  | reserve (eventId matchId buyerId : String) (amt : Int)
  | releaseExpired (matchId : String)
  | confirmFill (matchId : String)
deriving DecidableEq, Repr

/-- Release the first reservation with the given id that is still `RESERVED`
and whose lease has expired, returning the updated list and the held amount
given back to the listing.  Any other reservation is left untouched, so a
second release of the same id returns nothing. -/
def releaseInList (mid : String) (now : Int) : List Fill → List Fill × Int
  | [] => ([], 0)
  | r :: rest =>
      if r.matchId = mid ∧ r.status = FillStatus.RESERVED ∧ r.expiresAt < now then
        ({ r with status := FillStatus.EXPIRED } :: rest, r.fillAmount)
      else
        let p := releaseInList mid now rest
        (r :: p.1, p.2)

/-- Confirm the first reservation with the given id that is still `RESERVED`
and not yet expired; the listing's available amount is not touched. -/
def confirmInList (mid : String) (now : Int) : List Fill → List Fill
  | [] => []
  | r :: rest =>
      if r.matchId = mid ∧ r.status = FillStatus.RESERVED ∧ now ≤ r.expiresAt then
        { r with status := FillStatus.CONFIRMED } :: rest
      else r :: confirmInList mid now rest

/-- Modelled from the spec: one Matching-engine step on a listing.
Reservation creation (spec §4.3 market purchase) fails without effect unless
the amount is positive, the listing is unexpired and open, and the requested
amount fits in `availableAmount`; on success it atomically decrements
`availableAmount` and records a `RESERVED` lease with a five-minute expiry.
Releasing an expired lease (spec §3, §4.3) returns the held amount exactly
once; confirming a fill consumes the lease without touching
`availableAmount`. -/
def step (s : ListingState) (op : MOp) (now : Int) : ListingState :=
  match op with
  | .reserve eventId matchId buyerId amt =>
      if 0 < amt ∧ now ≤ s.listing.expiresAt ∧
          (s.listing.status = ListingStatus.ACTIVE
            ∨ s.listing.status = ListingStatus.PARTIALLY_FILLED) ∧
          amt ≤ s.listing.availableAmount then
        { listing :=
            { s.listing with
              availableAmount := s.listing.availableAmount - amt
              status :=
                if s.listing.availableAmount - amt = 0 then ListingStatus.FILLED
                else ListingStatus.PARTIALLY_FILLED }
          reservations :=
            { matchId := matchId
              eventId := eventId
              buyerId := buyerId
              buyerVault := none
              sellerId := s.listing.sellerId
              sellerVault := none
              fillAmount := amt
              listingId := some s.listing.listingId
              requiresBuyerProof := true
              status := FillStatus.RESERVED
              createdAt := now
              expiresAt := now + 5 * 60 * 1000 } :: s.reservations }
      else s
  | .releaseExpired mid =>
      let p := releaseInList mid now s.reservations
      { listing := { s.listing with
          availableAmount := s.listing.availableAmount + p.2 }
        reservations := p.1 }
  | .confirmFill mid =>
      { s with reservations := confirmInList mid now s.reservations }

/-- Apply a timed sequence of Matching-engine operations. -/
def applyOps (s : ListingState) (ops : List (MOp × Int)) : ListingState :=
  ops.foldl (fun s p => step s p.1 p.2) s

/-- Sum of the amounts currently held by `RESERVED` leases. -/
def heldSum : List Fill → Int
  | [] => 0
  | r :: rest => (if r.status = FillStatus.RESERVED then r.fillAmount else 0) + heldSum rest

/-- Internal well-formedness of a listing state: the available amount is
non-negative, available plus held never exceeds the listing's total amount,
and every reservation holds a non-negative amount. -/
def inv (s : ListingState) : Prop :=
  0 ≤ s.listing.availableAmount ∧
    s.listing.availableAmount + heldSum s.reservations ≤ s.listing.amount ∧
    ∀ r ∈ s.reservations, 0 ≤ r.fillAmount

theorem heldSum_nonneg (rs : List Fill) (h : ∀ r ∈ rs, 0 ≤ r.fillAmount) :
    0 ≤ heldSum rs := by
  induction rs with
  | nil => simp [heldSum]
  | cons r rest ih =>
      have hr := h r (List.mem_cons_self _ _)
      have hrest := ih (fun x hx => h x (List.mem_cons_of_mem _ hx))
      by_cases hs : r.status = FillStatus.RESERVED <;>
        simp [heldSum, hs] <;> omega

theorem releaseInList_spec (mid : String) (now : Int) (rs : List Fill)
    (h : ∀ r ∈ rs, 0 ≤ r.fillAmount) :
    heldSum (releaseInList mid now rs).1 + (releaseInList mid now rs).2 = heldSum rs
      ∧ 0 ≤ (releaseInList mid now rs).2
      ∧ (∀ r ∈ (releaseInList mid now rs).1, 0 ≤ r.fillAmount) := by
  induction rs with
  | nil => simp [releaseInList, heldSum]
  | cons r rest ih =>
      have hr := h r (List.mem_cons_self _ _)
      have hrest := ih (fun x hx => h x (List.mem_cons_of_mem _ hx))
      by_cases hc : r.matchId = mid ∧ r.status = FillStatus.RESERVED ∧ r.expiresAt < now
      · have hstat : r.status = FillStatus.RESERVED := hc.2.1
        refine ⟨?_, ?_, ?_⟩
        · simp only [releaseInList]
          rw [if_pos hc]
          simp only [heldSum]
          simp [hstat]
          omega
        · simpa only [releaseInList, if_pos hc] using hr
        · intro x hx
          simp only [releaseInList, if_pos hc] at hx
          rcases List.mem_cons.mp hx with hx | hx
          · subst hx; simpa using hr
          · exact h x (List.mem_cons_of_mem _ hx)
      · obtain ⟨h1, h2, h3⟩ := hrest
        refine ⟨?_, ?_, ?_⟩
        · simp only [releaseInList, if_neg hc, heldSum]
          omega
        · simpa only [releaseInList, if_neg hc] using h2
        · intro x hx
          simp only [releaseInList, if_neg hc] at hx
          rcases List.mem_cons.mp hx with hx | hx
          · subst hx; exact hr
          · exact h3 x hx

theorem releaseInList_cases (mid : String) (now : Int) (rs : List Fill) :
    (releaseInList mid now rs).2 = 0
      ∨ ∃ r ∈ rs, r.matchId = mid ∧ r.status = FillStatus.RESERVED
          ∧ r.expiresAt < now ∧ (releaseInList mid now rs).2 = r.fillAmount := by
  induction rs with
  | nil => exact Or.inl rfl
  | cons r rest ih =>
      by_cases hc : r.matchId = mid ∧ r.status = FillStatus.RESERVED ∧ r.expiresAt < now
      · exact Or.inr ⟨r, List.mem_cons_self _ _, hc.1, hc.2.1, hc.2.2, by
          simp only [releaseInList, if_pos hc]⟩
      · rcases ih with h0 | ⟨x, hx, hx1, hx2, hx3, hx4⟩
        · exact Or.inl (by simp only [releaseInList, if_neg hc]; exact h0)
        · exact Or.inr ⟨x, List.mem_cons_of_mem _ hx, hx1, hx2, hx3, by
            simp only [releaseInList, if_neg hc]; exact hx4⟩

theorem confirmInList_spec (mid : String) (now : Int) (rs : List Fill)
    (h : ∀ r ∈ rs, 0 ≤ r.fillAmount) :
    heldSum (confirmInList mid now rs) ≤ heldSum rs
      ∧ ∀ r ∈ confirmInList mid now rs, 0 ≤ r.fillAmount := by
  induction rs with
  | nil => simp [confirmInList, heldSum]
  | cons r rest ih =>
      have hr := h r (List.mem_cons_self _ _)
      have hrest := ih (fun x hx => h x (List.mem_cons_of_mem _ hx))
      by_cases hc : r.matchId = mid ∧ r.status = FillStatus.RESERVED ∧ now ≤ r.expiresAt
      · have hstat : r.status = FillStatus.RESERVED := hc.2.1
        refine ⟨?_, ?_⟩
        · simp only [confirmInList]
          rw [if_pos hc]
          simp only [heldSum]
          simp [hstat]
          omega
        · intro x hx
          simp only [confirmInList, if_pos hc] at hx
          rcases List.mem_cons.mp hx with hx | hx
          · subst hx; simpa using hr
          · exact h x (List.mem_cons_of_mem _ hx)
      · obtain ⟨h1, h2⟩ := hrest
        refine ⟨?_, ?_⟩
        · simp only [confirmInList, if_neg hc, heldSum]
          omega
        · intro x hx
          simp only [confirmInList, if_neg hc] at hx
          rcases List.mem_cons.mp hx with hx | hx
          · subst hx; exact hr
          · exact h2 x hx

theorem step_inv (s : ListingState) (op : MOp) (now : Int) (h : inv s) :
    inv (step s op now) := by
  obtain ⟨h0, h1, h2⟩ := h
  cases op with
  | reserve eid mid bid amt =>
      by_cases hc : 0 < amt ∧ now ≤ s.listing.expiresAt ∧
          (s.listing.status = ListingStatus.ACTIVE
            ∨ s.listing.status = ListingStatus.PARTIALLY_FILLED) ∧
          amt ≤ s.listing.availableAmount
      · refine ⟨?_, ?_, ?_⟩
        · simp only [step, if_pos hc, inv]
          omega
        · simp only [step, if_pos hc]
          simp [heldSum]
          omega
        · intro r hr
          simp only [step, if_pos hc] at hr
          rcases List.mem_cons.mp hr with hr | hr
          · subst hr
            exact le_of_lt hc.1
          · exact h2 r hr
      · simp only [step, if_neg hc]
        exact ⟨h0, h1, h2⟩
  | releaseExpired mid =>
      obtain ⟨e1, e2, e3⟩ := releaseInList_spec mid now s.reservations h2
      refine ⟨?_, ?_, ?_⟩
      · simp only [step]
        omega
      · simp only [step]
        omega
      · intro r hr
        simp only [step] at hr
        exact e3 r hr
  | confirmFill mid =>
      obtain ⟨c1, c2⟩ := confirmInList_spec mid now s.reservations h2
      refine ⟨h0, ?_, ?_⟩
      · simp only [step]
        omega
      · intro r hr
        simp only [step] at hr
        exact c2 r hr

theorem applyOps_inv (s : ListingState) (ops : List (MOp × Int)) (h : inv s) :
    inv (applyOps s ops) := by
  induction ops generalizing s with
  | nil => exact h
  | cons p rest ih =>
      have hstep := step_inv s p.1 p.2 h
      simpa [applyOps, List.foldl] using ih (step s p.1 p.2) hstep

theorem step_avail (s : ListingState) (op : MOp) (now : Int) :
    (step s op now).listing.availableAmount ≤ s.listing.availableAmount
      ∨ ∃ mid, op = MOp.releaseExpired mid ∧ ∃ r ∈ s.reservations,
          r.matchId = mid ∧ r.status = FillStatus.RESERVED ∧ r.expiresAt < now ∧
          (step s op now).listing.availableAmount
            = s.listing.availableAmount + r.fillAmount := by
  cases op with
  | reserve eid mid bid amt =>
      by_cases hc : 0 < amt ∧ now ≤ s.listing.expiresAt ∧
          (s.listing.status = ListingStatus.ACTIVE
            ∨ s.listing.status = ListingStatus.PARTIALLY_FILLED) ∧
          amt ≤ s.listing.availableAmount
      · left
        simp only [step, if_pos hc]
        omega
      · left
        simp only [step, if_neg hc]
        exact le_refl _
  | releaseExpired mid =>
      rcases releaseInList_cases mid now s.reservations with h0 | ⟨r, hr, hr1, hr2, hr3, hr4⟩
      · left
        simp only [step, h0]
        omega
      · right
        exact ⟨mid, rfl, r, hr, hr1, hr2, hr3, by simp only [step, hr4]⟩
  | confirmFill mid =>
      left
      simp only [step, le_refl]

/-- C3: under the Matching engine's operations on a listing (reservation
creation, release of an expired reservation, fill confirmation), the listing's
`availableAmount` stays between `0` and its total `amount`; and a single step
never increases `availableAmount` except when it releases an expired
`RESERVED` reservation, in which case it returns exactly that reservation's
held amount. -/
theorem listing_available_invariant :
    (∀ (l : Listing) (ops : List (MOp × Int)),
        0 ≤ l.availableAmount → l.availableAmount ≤ l.amount →
        0 ≤ (applyOps ⟨l, []⟩ ops).listing.availableAmount
          ∧ (applyOps ⟨l, []⟩ ops).listing.availableAmount
              ≤ (applyOps ⟨l, []⟩ ops).listing.amount)
    ∧ (∀ (s : ListingState) (op : MOp) (now : Int),
        (step s op now).listing.availableAmount ≤ s.listing.availableAmount
          ∨ ∃ mid, op = MOp.releaseExpired mid ∧ ∃ r ∈ s.reservations,
              r.matchId = mid ∧ r.status = FillStatus.RESERVED ∧ r.expiresAt < now ∧
              (step s op now).listing.availableAmount
                = s.listing.availableAmount + r.fillAmount) := by
  constructor
  · intro l ops h0 h1
    have hinv : inv ⟨l, []⟩ := ⟨h0, by simpa [heldSum] using h1, by simp⟩
    obtain ⟨g0, g1, g2⟩ := applyOps_inv ⟨l, []⟩ ops hinv
    have hpos := heldSum_nonneg (applyOps ⟨l, []⟩ ops).reservations g2
    exact ⟨g0, by omega⟩
  · exact step_avail

/-- Concrete listing used by the C3 witness: 2000 total, all available. -/
def lW : Listing :=
  { listingId := "L1"
    askToMoveId := none
    sellerId := "carol"
    amount := 2000
    priceUsdt := 5
    availableAmount := 2000
    status := .ACTIVE
    createdAt := 0
    expiresAt := 172800000 }

/-- Concrete operation sequence for the C3 witness: reserve 500, let the
reservation expire, release it, then reserve 2000 (which must fail since only
2000 are available and the listing is `PARTIALLY_FILLED` again after the
release). -/
def opsW : List (MOp × Int) :=
  [(MOp.reserve "e1" "m1" "bob" 500, 0),
   (MOp.releaseExpired "m1", 400000),
   (MOp.reserve "e2" "m2" "dave" 1500, 500000),
   (MOp.confirmFill "m2", 500001)]

/-- Concrete state with one expired reservation for the C3 witness's
monotonicity conjunct. -/
def sW : ListingState :=
  { listing := { lW with availableAmount := 1500, status := .PARTIALLY_FILLED }
    reservations :=
      [{ matchId := "m1"
         eventId := "e1"
         buyerId := "bob"
         buyerVault := none
         sellerId := "carol"
         sellerVault := none
         fillAmount := 500
         listingId := some "L1"
         requiresBuyerProof := true
         status := .RESERVED
         createdAt := 0
         expiresAt := 300000 }] }

/-- Witness for C3 at the concrete listing `lW`, operation list `opsW` and
state `sW`. -/
theorem listing_available_invariant_witness :
    (0 ≤ (applyOps ⟨lW, []⟩ opsW).listing.availableAmount
      ∧ (applyOps ⟨lW, []⟩ opsW).listing.availableAmount
          ≤ (applyOps ⟨lW, []⟩ opsW).listing.amount)
    ∧ ((step sW (MOp.releaseExpired "m1") 400000).listing.availableAmount
          ≤ sW.listing.availableAmount
        ∨ ∃ mid, MOp.releaseExpired "m1" = MOp.releaseExpired mid
            ∧ ∃ r ∈ sW.reservations,
              r.matchId = mid ∧ r.status = FillStatus.RESERVED ∧ r.expiresAt < 400000 ∧
              (step sW (MOp.releaseExpired "m1") 400000).listing.availableAmount
                = sW.listing.availableAmount + r.fillAmount) :=
  ⟨listing_available_invariant.1 lW opsW (by decide) (by decide),
   listing_available_invariant.2 sW (MOp.releaseExpired "m1") 400000⟩

end Matching

namespace FloorManager

/-- Custodian operation recorded on an ownership change
(`08_FloorManager.ts`, `OwnershipChanged.operation`). -/
inductive TransferOp where
  | Issue
  | ChangeOwner
deriving DecidableEq, Repr

/-- The `ownership.changed` event consumed by the Floor Manager
(`08_FloorManager.ts`).  The source fields `from`/`to` are embedded as
`fromId`/`toId`. -/
structure OwnershipChanged where
  eventId : String
  matchId : String
  assetReceiptId : String
  operation : TransferOp
  fromId : Option String
  toId : String
  amount : Int
  ts : String
deriving DecidableEq, Repr

/-- One oracle record (`08_FloorManager.ts`, `OracleHelix`); each helix is one
asset unit, and only the fields the reconciler reads are kept. -/
structure OracleHelix where
  which_onli : String
  current_owner_id : String
  blacklisted : Bool
deriving DecidableEq, Repr

/-- Response of the custodian's `RevealGenomes` oracle RPC. -/
structure OracleResponse where
  OracleHelices : List OracleHelix
deriving DecidableEq, Repr

/-- Result shape of `FloorManager.verifyWithOracle`. -/
structure VerifyResult where
  verified : Bool
  helixCount : Nat
  reason : Option String
deriving DecidableEq, Repr

/-- Outcome of one reconciliation run: either the `order.completed` event for
the `eventId` is published (a COMPLETED receipt was composed and stored), or
the failure handler runs.  Modelled from the spec: the body of
`handleReconciliationFailure` is absent from the source (only its call site at
`08_FloorManager.ts` line 188); the spec has it emit `reconcile.failed` /
compose a FAILED receipt, never a COMPLETED one. -/
inductive ReconOutcome where
  | completed (eventId : String)
  | reconcileFailed (eventId : String) (message : String)
deriving DecidableEq, Repr

/-- Embedding of `FloorManager.verifyWithOracle` (`08_FloorManager.ts` lines
192-210).  The oracle's network reply is the `response` argument.  The check
only asks whether some helix of the reply lists `owner` as its current owner;
the `receiptId` argument and the helix amounts are not inspected. -/
def verifyWithOracle (owner : String) (receiptId : String)
    (response : OracleResponse) : VerifyResult :=
  let verified := response.OracleHelices.any (fun h => h.current_owner_id == owner)
  { verified := verified
    helixCount := response.OracleHelices.length
    reason := if verified then none else some "Owner not found in oracle" }

/-- Embedding of `FloorManager.processOwnershipChanged` (`08_FloorManager.ts`
lines 154-190): verify with the oracle; on a verified reply finalize ledgers,
compose and store the receipt and publish `order.completed`; on a failed
verification the thrown error lands in the catch block and the failure handler
runs. -/
def processOwnershipChanged (event : OwnershipChanged)
    (response : OracleResponse) : ReconOutcome :=
  let oracleResult := verifyWithOracle event.toId event.assetReceiptId response
  if oracleResult.verified then
    ReconOutcome.completed event.eventId
  else
    ReconOutcome.reconcileFailed event.eventId "Oracle verification failed: Owner not found in oracle"

/-- Definition following the spec's words for C4: the destination owner holds
the asset in the oracle, and holds it in the expected amount (one helix per
asset unit, so the number of helices owned by the destination equals the
transferred amount). -/
def specOracleOwnerAndAmount (event : OwnershipChanged)
    (response : OracleResponse) : Prop :=
  (∃ h ∈ response.OracleHelices, h.current_owner_id = event.toId) ∧
    ((response.OracleHelices.filter
        (fun h => h.current_owner_id == event.toId)).length : Int) = event.amount

/-- Concrete ownership-change event for the C4 counterexample: 1000 units
reported delivered to alice. -/
def eventC4 : OwnershipChanged :=
  { eventId := "e4"
    matchId := "m4"
    assetReceiptId := "rcpt-4"
    operation := .Issue
    fromId := none
    toId := "alice"
    amount := 1000
    ts := "t" }

/-- Concrete oracle reply for the C4 counterexample: alice owns exactly one
helix, so the expected amount (1000) is off by 999. -/
def responseC4 : OracleResponse :=
  { OracleHelices := [{ which_onli := "g1", current_owner_id := "alice", blacklisted := false }] }

/-- C4 counterexample: with the oracle reporting the owner but a wrong amount,
the reconciler still reaches the COMPLETED path — an amount mismatch is not an
oracle-verification-failed outcome, contradicting the claim. -/
theorem oracle_amount_not_checked_counterexample :
    ¬ specOracleOwnerAndAmount eventC4 responseC4 ∧
      processOwnershipChanged eventC4 responseC4 = ReconOutcome.completed "e4" := by
  constructor
  · intro h
    have := h.2
    revert this
    decide
  · rfl

/-- C4 (amended): the reconciler composes a COMPLETED outcome for an ownership
change exactly when the destination owner appears in the oracle reply at all;
an owner-not-found reply yields the failure handler (never COMPLETED), but the
amount is not verified. -/
theorem oracle_verification_owner_only (event : OwnershipChanged)
    (response : OracleResponse) :
    (processOwnershipChanged event response = ReconOutcome.completed event.eventId
        ↔ ∃ h ∈ response.OracleHelices, h.current_owner_id = event.toId)
      ∧ ((¬ ∃ h ∈ response.OracleHelices, h.current_owner_id = event.toId) →
          processOwnershipChanged event response
            = ReconOutcome.reconcileFailed event.eventId
                "Oracle verification failed: Owner not found in oracle") := by
  have hany : (response.OracleHelices.any (fun h => h.current_owner_id == event.toId)) = true
      ↔ ∃ h ∈ response.OracleHelices, h.current_owner_id = event.toId := by
    simp [List.any_eq_true]
  constructor
  · constructor
    · intro hdone
      by_contra hno
      have hfalse : (response.OracleHelices.any
          (fun h => h.current_owner_id == event.toId)) = false := by
        rcases Bool.eq_false_or_eq_true (response.OracleHelices.any
            (fun h => h.current_owner_id == event.toId)) with h | h
        · exact absurd (hany.mp h) hno
        · exact h
      rw [processOwnershipChanged] at hdone
      simp [verifyWithOracle, hfalse] at hdone
    · intro hyes
      rw [processOwnershipChanged]
      simp [verifyWithOracle, hany.mpr hyes]
  · intro hno
    have hfalse : (response.OracleHelices.any
        (fun h => h.current_owner_id == event.toId)) = false := by
      rcases Bool.eq_false_or_eq_true (response.OracleHelices.any
          (fun h => h.current_owner_id == event.toId)) with h | h
      · exact absurd (hany.mp h) hno
      · exact h
    rw [processOwnershipChanged]
    simp [verifyWithOracle, hfalse]

/-- Witness for C4's amended theorem: at the concrete event `eventC4` with an
empty oracle reply, the owner is not found and the outcome is the failure
handler. -/
theorem oracle_verification_owner_only_witness :
    processOwnershipChanged eventC4 { OracleHelices := [] }
      = ReconOutcome.reconcileFailed "e4"
          "Oracle verification failed: Owner not found in oracle" :=
  (oracle_verification_owner_only eventC4 { OracleHelices := [] }).2 (by decide)

end FloorManager

namespace Classifier

/-- User roles kept in the marketplace user registry
(`04_Classifier.ts`, `UserRole`). -/
inductive UserRole where
  | TRADER
  | MARKET_MAKER
  | TREASURY
  | LIQUIDITY_PROVIDER
  | MATCH_ME
  | ADMIN
deriving DecidableEq, Repr

/-- Proceeds instruction of a sell request (`04_Classifier.ts`,
`ClassifierInput.event.putProceeds`). -/
structure PutProceeds where
  usdtAddress : String
  chain : String
deriving DecidableEq, Repr

/-- Event payload of a classifier input (`04_Classifier.ts`,
`ClassifierInput.event`).  The source fields `from`/`to` are embedded as
`fromId`/`toId`. -/
structure CEvent where
  eventId : String
  fromId : String
  toId : String
  amount : Int
  listingId : Option String
  putProceeds : Option PutProceeds
deriving DecidableEq, Repr

/-- Classifier input (`04_Classifier.ts`, `ClassifierInput`); the optional
user registry is an association list standing for the source `Map`. -/
structure ClassifierInput where
  event : CEvent
  userRegistry : Option (List (String × UserRole))
  ts : String
deriving DecidableEq, Repr

/-- Metadata block of the classifier's output (`04_Classifier.ts`,
`OrderClassified.metadata`). -/
structure Metadata where
  fromRole : Option UserRole
  toRole : Option UserRole
  classificationReason : String
deriving DecidableEq, Repr

/-- The `order.classified` event the classifier emits (`04_Classifier.ts`,
`OrderClassified`). -/
structure OrderClassified where
  eventId : String
  intent : Intent
  amount : Int
  listingId : Option String
  metadata : Metadata
  ts : String
deriving DecidableEq, Repr

/-- The `order.validated` event consumed by `processEvent`
(`04_Classifier.ts`, `OrderValidated`).  The `mode`, `prepaid` and `evidence`
fields are carried but unused by the classifier. -/
structure OrderValidated where
  eventId : String
  fromId : String
  toId : String
  amount : Int
  mode : String
  prepaid : Bool
  ts : String
deriving DecidableEq, Repr

/-- Embedding of `Map.prototype.get` on the optional registry. -/
def lookupRole (registry : Option (List (String × UserRole))) (k : String) :
    Option UserRole :=
  match registry with
  | none => none
  | some l => (l.find? (fun p => p.1 == k)).map (fun p => p.2)

/-- Embedding of `Classifier.isTreasuryDestination` (`04_Classifier.ts` lines
110-115): the destination contains the substring `treasury` case-insensitively,
or the registry maps it to the treasury role. -/
def isTreasuryDestination (dest : String)
    (registry : Option (List (String × UserRole))) : Bool :=
  if containsSeq "treasury".data (dest.data.map Char.toLower) then true
  else if lookupRole registry dest == some UserRole.TREASURY then true
  else false

/-- Embedding of `Classifier.decide` (`04_Classifier.ts` lines 75-108).  The
`new Date().toISOString()` read that stamps the output is the `nowTs`
argument. -/
def decide (input : ClassifierInput) (nowTs : String) : OrderClassified :=
  let p : Intent × String :=
    if input.event.listingId.isSome then
      (Intent.BUY_MARKET, "Explicit listing ID provided")
    else if isTreasuryDestination input.event.toId input.userRegistry then
      (Intent.BUY_TREASURY, "Destination is treasury")
    else if input.event.putProceeds.isSome then
      (Intent.SELL_MARKET, "Put proceeds specified")
    else
      (Intent.TRANSFER, "P2P transfer (default)")
  { eventId := input.event.eventId
    intent := p.1
    amount := input.event.amount
    listingId := input.event.listingId
    metadata :=
      { fromRole := lookupRole input.userRegistry input.event.fromId
        toRole := lookupRole input.userRegistry input.event.toId
        classificationReason := p.2 }
    ts := nowTs }

/-- Embedding of `Classifier.processEvent` (`04_Classifier.ts` lines 117-130):
the classifier input is built from only the event's `eventId`, `from`, `to` and
`amount` fields (no `listingId`, no `putProceeds`, no registry), stamped with
two clock reads `ts1` (input `ts`) and `ts2` (output `ts`). -/
def processEvent (e : OrderValidated) (ts1 ts2 : String) : OrderClassified :=
  decide
    { event :=
        { eventId := e.eventId
          fromId := e.fromId
          toId := e.toId
          amount := e.amount
          listingId := none
          putProceeds := none }
      userRegistry := none
      ts := ts1 }
    ts2

/-- Definition following the spec's words for C6: first-match-wins decision
order — explicit listing reference, then treasury destination, then proceeds
address, else peer transfer. -/
def specDecisionIntent (input : ClassifierInput) : Intent :=
  if input.event.listingId.isSome then Intent.BUY_MARKET
  else if isTreasuryDestination input.event.toId input.userRegistry then
    Intent.BUY_TREASURY
  else if input.event.putProceeds.isSome then Intent.SELL_MARKET
  else Intent.TRANSFER

/-- C6: the classifier assigns the intent by the spec's first-match-wins
decision order: an explicit listing reference yields `BUY_MARKET`; otherwise a
destination resolving to the treasury account yields `BUY_TREASURY`; otherwise
a present proceeds address yields `SELL_MARKET`; otherwise `TRANSFER`. -/
theorem classifier_decision_order (input : ClassifierInput) (nowTs : String) :
    (decide input nowTs).intent = specDecisionIntent input
    ∧ (input.event.listingId.isSome = true →
        (decide input nowTs).intent = Intent.BUY_MARKET)
    ∧ (input.event.listingId = none →
        isTreasuryDestination input.event.toId input.userRegistry = true →
        (decide input nowTs).intent = Intent.BUY_TREASURY)
    ∧ (input.event.listingId = none →
        isTreasuryDestination input.event.toId input.userRegistry = false →
        input.event.putProceeds.isSome = true →
        (decide input nowTs).intent = Intent.SELL_MARKET)
    ∧ (input.event.listingId = none →
        isTreasuryDestination input.event.toId input.userRegistry = false →
        input.event.putProceeds = none →
        (decide input nowTs).intent = Intent.TRANSFER) := by
  have hmain : (decide input nowTs).intent = specDecisionIntent input := by
    simp only [decide, specDecisionIntent]
    split_ifs <;> rfl
  refine ⟨hmain, ?_, ?_, ?_, ?_⟩
  · intro h1
    rw [hmain]
    simp [specDecisionIntent, h1]
  · intro h1 h2
    rw [hmain]
    simp [specDecisionIntent, h1, h2]
  · intro h1 h2 h3
    rw [hmain]
    simp [specDecisionIntent, h1, h2, h3]
  · intro h1 h2 h3
    rw [hmain]
    simp [specDecisionIntent, h1, h2, h3]

/-- Concrete treasury-destination input for the C6 witness. -/
def inputC6 : ClassifierInput :=
  { event :=
      { eventId := "e6"
        fromId := "alice"
        toId := "usr-treasury-vault-system"
        amount := 100
        listingId := none
        putProceeds := none }
    userRegistry := none
    ts := "tIn" }

/-- Witness for C6 at the concrete input `inputC6`: no listing is referenced
and the destination resolves to treasury, so the intent is `BUY_TREASURY`. -/
theorem classifier_decision_order_witness :
    (decide inputC6 "t0").intent = Intent.BUY_TREASURY :=
  (classifier_decision_order inputC6 "t0").2.2.1 rfl (by decide)

/-- Concrete input for the C9 counterexample. -/
def inputC9 : ClassifierInput :=
  { event :=
      { eventId := "e9"
        fromId := "alice"
        toId := "bob"
        amount := 5
        listingId := none
        putProceeds := none }
    userRegistry := none
    ts := "tIn" }

/-- C9 counterexample: two invocations of `Classifier.decide` on the same
fixed input at different wall-clock instants produce different outputs,
because the output embeds the invocation timestamp in its `ts` field. -/
theorem classifier_output_ts_counterexample :
    decide inputC9 "2025-01-01T00:00:00.000Z"
      ≠ decide inputC9 "2025-01-01T00:00:01.000Z" := by
  decide

/-- Projection of the classifier output onto everything except the emission
timestamp. -/
def dropTs (o : OrderClassified) :
    String × Intent × Int × Option String × Metadata :=
  (o.eventId, o.intent, o.amount, o.listingId, o.metadata)

/-- C9 (amended): for a fixed input, repeated invocations of
`Classifier.decide` agree on every output field except the emission timestamp
`ts`, which is a fresh wall-clock read of each invocation. -/
theorem classifier_deterministic_up_to_ts (input : ClassifierInput)
    (t1 t2 : String) :
    dropTs (decide input t1) = dropTs (decide input t2) := rfl

/-- C10: on the `order.validated` path, `processEvent` forwards only
`eventId`, `from`, `to` and `amount` into the classifier input (no listing
reference and no proceeds address), so the published intent is always
`BUY_TREASURY` or `TRANSFER` and never `BUY_MARKET` or `SELL_MARKET`. -/
theorem processEvent_intent_restricted (e : OrderValidated) (ts1 ts2 : String) :
    ((processEvent e ts1 ts2).intent = Intent.BUY_TREASURY
      ∨ (processEvent e ts1 ts2).intent = Intent.TRANSFER)
    ∧ (processEvent e ts1 ts2).intent ≠ Intent.BUY_MARKET
    ∧ (processEvent e ts1 ts2).intent ≠ Intent.SELL_MARKET := by
  by_cases h : isTreasuryDestination e.toId none = true
  · refine ⟨Or.inl ?_, ?_, ?_⟩ <;> simp [processEvent, decide, h]
  · have hf : isTreasuryDestination e.toId none = false := by
      rcases Bool.eq_false_or_eq_true (isTreasuryDestination e.toId none) with h0 | h0
      · exact absurd h0 h
      · exact h0
    refine ⟨Or.inr ?_, ?_, ?_⟩ <;> simp [processEvent, decide, hf]

end Classifier

namespace Validator

/-- Blockchain networks known to the Validator (`part_004`, `Chain`), plus the
`UNKNOWN` literal that `detectNetwork` can return. -/
inductive Chain where
  | TRON
  | ETH
  | BSC
  | UNKNOWN
deriving DecidableEq, Repr

/-- Payment object returned by the NOWPayments `GET /payment/{id}` call, with
the fields `NOWPaymentsVerifier.verifyPayment` reads.  `created_at` is embedded
as a millisecond timestamp. -/
structure NOWPayment where
  payment_status : String
  price_amount : ℚ
  price_currency : String
  actually_paid : ℚ
  confirmations : Option Nat
  pay_currency : String
  created_at : Int
deriving DecidableEq, Repr

/-- Modelled from the spec: the body of `isWithinTimeWindow` is absent from the
source (only its call sites); the configuration fixes the freshness window at
60 minutes (`MAX_PAYMENT_AGE_MINUTES=60` / `maxPaymentAge` 3600 s), so a
timestamp is fresh when it is not in the future and at most 3600000 ms old. -/
def isWithinTimeWindow (now t : Int) : Bool :=
  decide (0 ≤ now - t ∧ now - t ≤ 3600000)

/-- Embedding of `NOWPaymentsVerifier.getConfirmations`
(`payment.confirmations || 0`). -/
def getConfirmations (p : NOWPayment) : Nat := p.confirmations.getD 0

/-- Embedding of `NOWPaymentsVerifier.detectNetwork`. -/
def detectNetwork (p : NOWPayment) : Chain :=
  if p.pay_currency == "usdttrc20" then Chain.TRON
  else if p.pay_currency == "usdterc20" then Chain.ETH
  else if p.pay_currency == "usdtbep20" then Chain.BSC
  else Chain.UNKNOWN

/-- The named validation checks of the NOWPayments path
(`Validator_Service_Spec.md` lines 99-105). -/
structure NOWChecks where
  status_check : Bool
  amount_check : Bool
  currency_check : Bool
  confirmation_check : Bool
  timestamp_check : Bool
deriving DecidableEq, Repr

/-- Verification result of the NOWPayments path
(`Validator_Service_Spec.md` lines 108-115). -/
structure NOWVerificationResult where
  valid : Bool
  payment_id : String
  actual_amount : ℚ
  confirmations : Nat
  network : Chain
  checks : NOWChecks
deriving DecidableEq, Repr

/-- Embedding of `NOWPaymentsVerifier.verifyPayment`
(`Validator_Service_Spec.md` lines 88-116).  The fetched payment object and
the wall clock are arguments.  Note the amount check is an absolute
`|price_amount - expected| < 0.01` comparison. -/
def verifyPayment (payment : NOWPayment) (paymentId : String)
    (expectedAmount : ℚ) (now : Int) : NOWVerificationResult :=
  let checks : NOWChecks :=
    { status_check := payment.payment_status == "finished"
      amount_check := decide (|payment.price_amount - expectedAmount| < 1 / 100)
      currency_check := payment.price_currency == "USDT"
      confirmation_check := decide (12 ≤ getConfirmations payment)
      timestamp_check := isWithinTimeWindow now payment.created_at }
  { valid := checks.status_check && checks.amount_check && checks.currency_check
      && checks.confirmation_check && checks.timestamp_check
    payment_id := paymentId
    actual_amount := payment.actually_paid
    confirmations := getConfirmations payment
    network := detectNetwork payment
    checks := checks }

/-- The USDT TRC20 contract address (`Validator_Service_Spec.md` line 144). -/
def USDT_CONTRACT : String := "TR7NHqjeKQxGTCi8q8ZY4pL8otSzgjLj6t"

/-- Decoded view of a fetched TRON transaction: the TRC20 transfer fields
produced by `decodeTRC20Transfer` plus the status, timestamp and block number
`verifyTransaction` reads from the raw transaction. -/
structure TronTx where
  contract_address : String
  owner_address : String
  to_address : String
  value : Nat
  contractRet : String
  block_timestamp : Int
  blockNumber : Int
deriving DecidableEq, Repr

/-- Embedding of `TronVerifier.normalizeAmount`: USDT has 6 decimals on
TRON. -/
def normalizeAmount (value : Nat) : ℚ := (value : ℚ) / 1000000

/-- The named validation checks of the direct-TRON path
(`Validator_Service_Spec.md` lines 170-189): seven checks, including sender
and recipient address equality, with exact amount equality. -/
structure TronChecks where
  contract_check : Bool
  from_check : Bool
  to_check : Bool
  amount_check : Bool
  confirmation_check : Bool
  status_check : Bool
  timestamp_check : Bool
deriving DecidableEq, Repr

/-- Verification result of the direct-TRON path
(`Validator_Service_Spec.md` lines 191-198). -/
structure TronVerificationResult where
  valid : Bool
  tx_hash : String
  actual_amount : ℚ
  confirmations : Int
  network : Chain
  checks : TronChecks
deriving DecidableEq, Repr

/-- Embedding of `TronVerifier.verifyTransaction` (`Validator_Service_Spec.md`
lines 155-199).  The fetched and decoded transaction, the current block number
(confirmations are `currentBlock - tx.blockNumber`) and the wall clock are
arguments. -/
def verifyTransaction (tx : TronTx) (txHash fromAddress toAddress : String)
    (expectedAmount : ℚ) (currentBlock now : Int) : TronVerificationResult :=
  let checks : TronChecks :=
    { contract_check := tx.contract_address == USDT_CONTRACT
      from_check := tx.owner_address == fromAddress
      to_check := tx.to_address == toAddress
      amount_check := decide (normalizeAmount tx.value = expectedAmount)
      confirmation_check := decide (12 ≤ currentBlock - tx.blockNumber)
      status_check := tx.contractRet == "SUCCESS"
      timestamp_check := isWithinTimeWindow now tx.block_timestamp }
  { valid := checks.contract_check && checks.from_check && checks.to_check
      && checks.amount_check && checks.confirmation_check && checks.status_check
      && checks.timestamp_check
    tx_hash := txHash
    actual_amount := normalizeAmount tx.value
    confirmations := currentBlock - tx.blockNumber
    network := Chain.TRON
    checks := checks }

/-- Definition following the spec's words for C5: the five validation
predicates — payment status indicates finality, currency matches the expected
asset (the USDT TRC20 contract), the confirmed amount is within a small
relative tolerance of the expected amount (0.1 percent, the configured
`PAYMENT_TOLERANCE_PERCENT`), the confirmation count meets the chain minimum
(12), and the timestamp is within the freshness window — stated for a
direct-TRON proof. -/
def specFivePredicatesTron (tx : TronTx) (expectedAmount : ℚ)
    (currentBlock now : Int) : Prop :=
  tx.contractRet = "SUCCESS" ∧
    tx.contract_address = USDT_CONTRACT ∧
    |normalizeAmount tx.value - expectedAmount| ≤ expectedAmount * (1 / 1000) ∧
    12 ≤ currentBlock - tx.blockNumber ∧
    (0 ≤ now - tx.block_timestamp ∧ now - tx.block_timestamp ≤ 3600000)

/-- C5 (amended): a verification result has `valid = true` exactly when all of
its path's own checks hold.  On the NOWPayments path these are five checks with
an absolute `< 0.01` amount tolerance; on the direct-TRON path they are seven
checks — the five plus sender- and recipient-address equality — with exact
amount equality. -/
theorem verifier_valid_iff :
    (∀ (p : NOWPayment) (pid : String) (expected : ℚ) (now : Int),
        (verifyPayment p pid expected now).valid = true ↔
          (p.payment_status = "finished" ∧ |p.price_amount - expected| < 1 / 100 ∧
            p.price_currency = "USDT" ∧ 12 ≤ getConfirmations p ∧
            (0 ≤ now - p.created_at ∧ now - p.created_at ≤ 3600000)))
    ∧ (∀ (tx : TronTx) (txHash fromAddress toAddress : String) (expected : ℚ)
          (currentBlock now : Int),
        (verifyTransaction tx txHash fromAddress toAddress expected
            currentBlock now).valid = true ↔
          (tx.contract_address = USDT_CONTRACT ∧ tx.owner_address = fromAddress ∧
            tx.to_address = toAddress ∧ normalizeAmount tx.value = expected ∧
            12 ≤ currentBlock - tx.blockNumber ∧ tx.contractRet = "SUCCESS" ∧
            (0 ≤ now - tx.block_timestamp ∧ now - tx.block_timestamp ≤ 3600000))) := by
  constructor
  · intro p pid expected now
    simp [verifyPayment, isWithinTimeWindow, Bool.and_eq_true, decide_eq_true_iff,
      beq_iff_eq, and_assoc]
  · intro tx txHash fromAddress toAddress expected currentBlock now
    simp [verifyTransaction, isWithinTimeWindow, Bool.and_eq_true, decide_eq_true_iff,
      beq_iff_eq, and_assoc]

/-- Concrete TRON transaction for the C5 counterexample: a genuine USDT
transfer of exactly the expected amount, finalized, confirmed and fresh, but
sent from a different address than the one the verifier was asked about. -/
def txC5 : TronTx :=
  { contract_address := "TR7NHqjeKQxGTCi8q8ZY4pL8otSzgjLj6t"
    owner_address := "TActualSender"
    to_address := "TDest"
    value := 1000000
    contractRet := "SUCCESS"
    block_timestamp := 0
    blockNumber := 0 }

/-- C5 counterexample: at `txC5` all five validation predicates of the claim
hold (finality, currency, amount within relative tolerance, confirmations,
freshness) yet the direct-TRON verifier returns `valid = false`, because the
path also requires sender- and recipient-address equality; so `valid = true`
is not equivalent to the five predicates. -/
theorem verifier_five_predicates_counterexample :
    specFivePredicatesTron txC5 1 20 1000 ∧
      (verifyTransaction txC5 "ff00" "TExpectedSender" "TDest" 1 20 1000).valid
        = false := by
  constructor
  · refine ⟨rfl, rfl, ?_, by norm_num [txC5], by norm_num [txC5]⟩
    norm_num [normalizeAmount, txC5]
  · have hfrom : (txC5.owner_address == "TExpectedSender") = false := by decide
    simp [verifyTransaction, hfrom]

/-- Failure-reason derivation for the NOWPayments checks
(`Validator_Service_Spec.md` lines 312-318).  The NOW checks object carries no
`contract_check` field, so in the source `!checks.contract_check` reads the
JavaScript `undefined` and is truthy: a result that failed only its currency
or timestamp check is reported as `invalid.token`. -/
def determineFailureReasonNow (c : NOWChecks) : String :=
  if !c.confirmation_check then "insufficient.confirmations"
  else if !c.amount_check then "amount.mismatch"
  else if !c.status_check then "payment.not.complete"
  else "invalid.token"

/-- Failure-reason derivation for the TRON checks
(`Validator_Service_Spec.md` lines 312-318). -/
def determineFailureReasonTron (c : TronChecks) : String :=
  if !c.confirmation_check then "insufficient.confirmations"
  else if !c.amount_check then "amount.mismatch"
  else if !c.status_check then "payment.not.complete"
  else if !c.contract_check then "invalid.token"
  else "validation.failed"

/-- Payment descriptor of an admitted request (`part_004`,
`EventRequest.payWith`). -/
structure PayWith where
  currency : String
  chain : Chain
  proof : Option String
  feeProof : Option String
deriving DecidableEq, Repr

/-- An admitted request as the Validator sees it (`part_004`, `EventRequest`).
The source fields `from`/`to` are embedded as `fromId`/`toId`; `putProceeds`
is the `(usdtAddress, chain)` pair. -/
structure EventRequest where
  eventId : String
  fromId : String
  toId : String
  amount : ℚ
  payWith : Option PayWith
  putProceeds : Option (String × Chain)
deriving DecidableEq, Repr

/-- Outcome of `validatePaymentProof`: the `order.validated` event or a
`payment.failed` event with its reason string. -/
inductive ValidationOutcome where
  | validated (eventId mode : String) (proof : String) (network : Chain)
      (confirmations : Int) (amountUsdt : ℚ) (ts : String)
  | failed (eventId reason : String)
deriving DecidableEq, Repr

/-- Embedding of `ValidatorService.isNOWPaymentId`: the regex
`^npmt_[a-zA-Z0-9]+$`. -/
def isNOWPaymentId (proof : String) : Bool :=
  listStartsWith "npmt_".data proof.data &&
    !(proof.data.drop 5).isEmpty &&
    (proof.data.drop 5).all Char.isAlphanum

/-- One hexadecimal digit, case-insensitively. -/
def isHexDigit (c : Char) : Bool :=
  c.isDigit || (decide (Char.ofNat 97 ≤ c.toLower) && decide (c.toLower ≤ Char.ofNat 102))

/-- Embedding of `ValidatorService.isTronTxHash`: the regex
`^[a-f0-9]{64}$` with the `i` flag. -/
def isTronTxHash (proof : String) : Bool :=
  proof.data.length == 64 && proof.data.all isHexDigit

/-- TRON backend configuration (`part_004` JSON schema and
`Validator_Service_Spec.md` section 4.1): a primary TronGrid URL and a
configured backup TronScan URL.  `TronVerifier.fetchTransaction` only ever
queries `apiUrl`; nothing in the source reads `backupUrl`. -/
structure TronBackendConfig where
  apiUrl : String
  backupUrl : String
deriving DecidableEq, Repr

/-- The default TRON backend configuration of the source. -/
def tronConfig : TronBackendConfig :=
  { apiUrl := "https://api.trongrid.io"
    backupUrl := "https://api.tronscan.org" }

/-- Embedding of `ValidatorService.validatePaymentProof`
(`Validator_Service_Spec.md` lines 243-300).  The proof-format dispatch picks
exactly one backend; the result of that backend's network call is the
`nowFetch` / `tronFetch` argument (an `Except.error` models the call throwing
or timing out), and the `catch` block maps any such error to a
`verification.error` failure.  The helpers whose bodies are absent
(`getUSDTPrice`, `extractFromAddress`, `getPaymentDestination`,
`determineMode`) are the `usdtPrice`, `fromAddr`, `destAddr` and `mode`
arguments. -/
def validatePaymentProof (req : EventRequest) (usdtPrice : ℚ)
    (fromAddr destAddr mode : String)
    (nowFetch : Except String NOWPayment)
    (tronFetch : Except String (TronTx × Int))
    (now : Int) (ts : String) : ValidationOutcome :=
  match req.payWith with
  | none => ValidationOutcome.failed req.eventId "proof.missing"
  | some pw =>
      match pw.proof with
      | none => ValidationOutcome.failed req.eventId "proof.missing"
      | some proof =>
          if isNOWPaymentId proof then
            match nowFetch with
            | Except.error _ =>
                ValidationOutcome.failed req.eventId "verification.error"
            | Except.ok payment =>
                let r := verifyPayment payment proof (req.amount * usdtPrice) now
                if r.valid then
                  ValidationOutcome.validated req.eventId mode proof r.network
                    (r.confirmations : Int) r.actual_amount ts
                else
                  ValidationOutcome.failed req.eventId
                    (determineFailureReasonNow r.checks)
          else if isTronTxHash proof then
            match tronFetch with
            | Except.error _ =>
                ValidationOutcome.failed req.eventId "verification.error"
            | Except.ok (tx, currentBlock) =>
                let r := verifyTransaction tx proof fromAddr destAddr
                  (req.amount * usdtPrice) currentBlock now
                if r.valid then
                  ValidationOutcome.validated req.eventId mode proof r.network
                    r.confirmations r.actual_amount ts
                else
                  ValidationOutcome.failed req.eventId
                    (determineFailureReasonTron r.checks)
          else ValidationOutcome.failed req.eventId "proof.invalid_format"

/-- Concrete request with a well-formed TRON transaction-hash proof, used to
exhibit the missing failover. -/
def reqC7 : EventRequest :=
  { eventId := "e7"
    fromId := "alice"
    toId := "bob"
    amount := 100
    payWith := some
      { currency := "USDT"
        chain := Chain.TRON
        proof := some "a1b2c3d4a1b2c3d4a1b2c3d4a1b2c3d4a1b2c3d4a1b2c3d4a1b2c3d4a1b2c3d4"
        feeProof := none }
    putProceeds := none }

/-- C7: when the primary TRON backend call errors or times out, the caller
receives a `verification.error` failure — `validatePaymentProof` consults no
secondary backend even though `tronConfig.backupUrl` is configured, so no
`VerificationResult` is ever produced from the backup. -/
theorem validator_no_failover_on_primary_error :
    validatePaymentProof reqC7 1 "TFrom" "TTo" "BUY"
        (Except.error "unused") (Except.error "TronGrid timeout") 0 "t"
      = ValidationOutcome.failed "e7" "verification.error" := rfl

end Validator

end Species
